import Mathlib

/-!
Shallow embedding of the Aave V3 Base subgraph mapping code
(src/helpers.ts, src/pool.ts, src/snapshots.ts, src/pricing.ts).

BigInt is modelled as ℤ (the event amounts and chain quantities are
arbitrary-precision integers), BigDecimal as ℚ (all BigDecimal
operations used by the code - plus, minus, times, div by powers of ten
and by integer constants - are exact, so rational arithmetic is a
faithful model).  Entity loads (`X.load(id)`) are modelled as `Option`
parameters; contract calls that can revert are modelled as `Option`
results.  Saving an entity is modelled by returning the updated value.
-/

namespace AaveSubgraph

/-- helpers.ts: SECONDS_PER_YEAR = BigInt.fromI32(31536000). -/
def SECONDS_PER_YEAR : ℤ := 31536000

/-- helpers.ts: SECONDS_PER_HOUR = BigInt.fromI32(3600). -/
def SECONDS_PER_HOUR : ℤ := 3600

/-- helpers.ts: SECONDS_PER_DAY = BigInt.fromI32(86400). -/
def SECONDS_PER_DAY : ℤ := 86400

/-- helpers.ts: RAY_BD = 10^27 as a BigDecimal. -/
def RAY_BD : ℚ := 1000000000000000000000000000

/-- helpers.ts: HUNDRED_BD. -/
def HUNDRED_BD : ℚ := 100

/-- helpers.ts: exponentToBigDecimal - multiplies 1 by 10, `decimals`
times (a non-positive count leaves it at 1). -/
def exponentToBigDecimal (decimals : ℤ) : ℚ := 10 ^ decimals.toNat

/-- helpers.ts: convertTokenToDecimal. -/
def convertTokenToDecimal (tokenAmount : ℤ) (decimals : ℤ) : ℚ :=
  if decimals = 0 then (tokenAmount : ℚ)
  else (tokenAmount : ℚ) / exponentToBigDecimal decimals

/-- helpers.ts: rayToDecimal - converts a 27-decimal fixed-point ray. -/
def rayToDecimal (ray : ℤ) : ℚ := (ray : ℚ) / RAY_BD

/-- helpers.ts: calculateUtilizationRate = totalBorrow / totalSupply * 100,
zero when totalSupply is zero. -/
def calculateUtilizationRate (totalBorrow totalSupply : ℤ) : ℚ :=
  if totalSupply = 0 then 0
  else (totalBorrow : ℚ) / (totalSupply : ℚ) * HUNDRED_BD

/-- helpers.ts: getHourId = timestamp / 3600 (BigInt division truncates). -/
def getHourId (timestamp : ℤ) : ℤ := timestamp / SECONDS_PER_HOUR

/-- helpers.ts: getDayId = timestamp / 86400 (BigInt division truncates). -/
def getDayId (timestamp : ℤ) : ℤ := timestamp / SECONDS_PER_DAY

/-- schema: Protocol singleton entity. -/
structure Protocol where
  totalSupplyUSD : ℚ
  totalBorrowUSD : ℚ
  totalRevenueUSD : ℚ
  cumulativeSupplySideRevenueUSD : ℚ
  cumulativeProtocolSideRevenueUSD : ℚ
deriving DecidableEq, Repr

/-- schema: Token entity (metadata cached from chain). -/
structure Token where
  id : String
  symbol : String
  name : String
  decimals : ℤ
  totalSupply : ℤ
  lastPriceUSD : ℚ
  lastPriceTimestamp : ℤ
deriving DecidableEq, Repr

/-- schema: Market entity (the fields the mapping code reads/writes). -/
structure Market where
  id : String
  inputToken : String
  totalSupply : ℤ
  totalBorrow : ℤ
  availableLiquidity : ℤ
  liquidityRate : ℤ
  variableBorrowRate : ℤ
  stableBorrowRate : ℤ
  supplyAPY : ℚ
  variableBorrowAPY : ℚ
  utilizationRate : ℚ
  reserveFactor : ℤ
  lastUpdateTimestamp : ℤ
  lastUpdateBlock : ℤ
  lastRevenueCalculationTimestamp : ℤ
deriving DecidableEq, Repr

/-- schema: User entity. -/
structure User where
  id : String
  totalSupplyUSD : ℚ
  totalBorrowUSD : ℚ
  transactionCount : ℤ
deriving DecidableEq, Repr

/-- schema: UserPosition entity, composite key (user, market). -/
structure UserPosition where
  aTokenBalance : ℤ
  variableDebtBalance : ℤ
  stableDebtBalance : ℤ
  principal : ℤ
  totalDeposited : ℤ
  totalWithdrawn : ℤ
  realizedPnL : ℚ
  unrealizedPnL : ℚ
  isCollateral : Bool
  lastUpdateTimestamp : ℤ
deriving DecidableEq, Repr

/-- schema: DailySnapshot entity, keyed by (market, dayId). -/
structure DailySnapshot where
  marketId : String
  dayId : ℤ
  timestamp : ℤ
  dailySupplyVolume : ℤ
  dailyWithdrawVolume : ℤ
  dailyBorrowVolume : ℤ
  dailyRepayVolume : ℤ
  dailyActiveUsers : ℤ
  dailySupplySideRevenueUSD : ℚ
  dailyProtocolSideRevenueUSD : ℚ
  dailyTotalRevenueUSD : ℚ
  supplyAPY : ℚ
  borrowAPY : ℚ
  utilizationRate : ℚ
  totalSupply : ℤ
  totalBorrow : ℤ
deriving DecidableEq, Repr

/-- PoolDataProvider.getReserveData result (a reverting call is `none`). -/
structure ReserveData where
  totalAToken : ℤ
  totalStableDebt : ℤ
  totalVariableDebt : ℤ
  liquidityRate : ℤ
  variableBorrowRate : ℤ
  stableBorrowRate : ℤ
deriving DecidableEq, Repr

/-- PoolDataProvider.getUserReserveData result (a reverting call is `none`). -/
structure UserReserveData where
  currentATokenBalance : ℤ
  currentStableDebt : ℤ
  currentVariableDebt : ℤ
  usageAsCollateralEnabled : Bool
deriving DecidableEq, Repr

/-- ReserveDataUpdated event rate parameters. -/
structure RateParams where
  liquidityRate : ℤ
  stableBorrowRate : ℤ
  variableBorrowRate : ℤ
deriving DecidableEq, Repr

/-- pool.ts getOrCreateProtocol: load the singleton; when absent create
it with all five USD fields zero. -/
def getOrCreateProtocol (protocolLoad : Option Protocol) : Protocol :=
  match protocolLoad with
  | some protocol => protocol
  | none =>
      { totalSupplyUSD := 0
        totalBorrowUSD := 0
        totalRevenueUSD := 0
        cumulativeSupplySideRevenueUSD := 0
        cumulativeProtocolSideRevenueUSD := 0 }

/-- pool.ts line 318: spread = rayToDecimal(variableBorrowRate) -
rayToDecimal(liquidityRate). -/
def spreadOf (market : Market) : ℚ :=
  rayToDecimal market.variableBorrowRate - rayToDecimal market.liquidityRate

/-- pool.ts lines 324-325: totalBorrowUSD = convertTokenToDecimal(totalBorrow,
token.decimals) * token.lastPriceUSD. -/
def totalBorrowUSDOf (market : Market) (token : Token) : ℚ :=
  convertTokenToDecimal market.totalBorrow token.decimals * token.lastPriceUSD

/-- pool.ts line 331: periodRevenue = spread * totalBorrowUSD *
timeElapsed / secondsPerYear. -/
def periodRevenueOf (market : Market) (token : Token) (timeElapsed : ℤ) : ℚ :=
  spreadOf market * totalBorrowUSDOf market token * (timeElapsed : ℚ)
    / (SECONDS_PER_YEAR : ℚ)

/-- pool.ts line 334: reserveFactorDecimal = reserveFactor / 10000. -/
def reserveFactorDecimalOf (market : Market) : ℚ :=
  (market.reserveFactor : ℚ) / 10000

/-- pool.ts line 335: protocolRevenue = periodRevenue * reserveFactorDecimal. -/
def protocolRevenueOf (market : Market) (token : Token) (timeElapsed : ℤ) : ℚ :=
  periodRevenueOf market token timeElapsed * reserveFactorDecimalOf market

/-- pool.ts line 336: supplySideRevenue = periodRevenue - protocolRevenue. -/
def supplySideRevenueOf (market : Market) (token : Token) (timeElapsed : ℤ) : ℚ :=
  periodRevenueOf market token timeElapsed - protocolRevenueOf market token timeElapsed

/-- pool.ts calculateAndAccumulateRevenue: guard on the accrual timestamp,
compute the spread revenue for the elapsed period, split it by reserve
factor, accumulate into the protocol counters, and unconditionally
advance lastRevenueCalculationTimestamp when the guard passes.
`tokenLoad` models `Token.load(market.inputToken)`. -/
def calculateAndAccumulateRevenue (protocolLoad : Option Protocol) (market : Market)
    (tokenLoad : Option Token) (timestamp : ℤ) : Protocol × Market :=
  let protocol := getOrCreateProtocol protocolLoad
  if timestamp ≤ market.lastRevenueCalculationTimestamp then
    (protocol, market)
  else
    let timeElapsed := timestamp - market.lastRevenueCalculationTimestamp
    let protocol1 :=
      if 0 < market.totalBorrow ∧ 0 < market.variableBorrowRate then
        if 0 < spreadOf market then
          match tokenLoad with
          | some token =>
              let supplySideRevenue := supplySideRevenueOf market token timeElapsed
              let protocolRevenue := protocolRevenueOf market token timeElapsed
              let newSupplySide := protocol.cumulativeSupplySideRevenueUSD + supplySideRevenue
              let newProtocolSide := protocol.cumulativeProtocolSideRevenueUSD + protocolRevenue
              { protocol with
                  cumulativeSupplySideRevenueUSD := newSupplySide
                  cumulativeProtocolSideRevenueUSD := newProtocolSide
                  totalRevenueUSD := newSupplySide + newProtocolSide }
          | none => protocol
        else protocol
      else protocol
    (protocol1, { market with lastRevenueCalculationTimestamp := timestamp })

/-- pool.ts updateMarketState: on a successful getReserveData call,
overwrite supply/borrow totals, available liquidity, the three rates
and the utilization rate; a reverted call leaves the market unchanged. -/
def updateMarketStateF (market : Market) (reserveData : Option ReserveData) : Market :=
  match reserveData with
  | none => market
  | some rd =>
      let newTotalSupply := rd.totalAToken
      let newTotalBorrow := rd.totalVariableDebt + rd.totalStableDebt
      { market with
          totalSupply := newTotalSupply
          totalBorrow := newTotalBorrow
          availableLiquidity := newTotalSupply - newTotalBorrow
          liquidityRate := rd.liquidityRate
          variableBorrowRate := rd.variableBorrowRate
          stableBorrowRate := rd.stableBorrowRate
          utilizationRate := calculateUtilizationRate newTotalBorrow newTotalSupply }

/-- pool.ts updateUserPositionFromChain: on a successful
getUserReserveData call, overwrite the three balance fields and the
collateral flag; a reverted call leaves the position unchanged. -/
def updateUserPositionFromChainF (position : UserPosition)
    (userData : Option UserReserveData) : UserPosition :=
  match userData with
  | none => position
  | some d =>
      { position with
          aTokenBalance := d.currentATokenBalance
          variableDebtBalance := d.currentVariableDebt
          stableDebtBalance := d.currentStableDebt
          isCollateral := d.usageAsCollateralEnabled }

/-- pool.ts recalculateProtocolTotals: enumerate the reserves list (a
reverted getReservesList is `none` and contributes nothing), sum each
loaded market's supply and borrow in USD at the freshly fetched oracle
price, and overwrite the protocol totals with the sums. -/
def recalculateProtocolTotals (protocolLoad : Option Protocol)
    (reservesResult : Option (List String)) (markets : String → Option Market)
    (tokens : String → Option Token) (oraclePrice : String → ℚ) : Protocol :=
  let protocol := getOrCreateProtocol protocolLoad
  let totals :=
    match reservesResult with
    | none => ((0 : ℚ), (0 : ℚ))
    | some reserves =>
        reserves.foldl (fun acc marketId =>
          match markets marketId with
          | none => acc
          | some market =>
              match tokens market.inputToken with
              | none => acc
              | some token =>
                  let token1 := { token with lastPriceUSD := oraclePrice token.id }
                  let supplyDecimal := convertTokenToDecimal market.totalSupply token1.decimals
                  let borrowDecimal := convertTokenToDecimal market.totalBorrow token1.decimals
                  (acc.1 + supplyDecimal * token1.lastPriceUSD,
                   acc.2 + borrowDecimal * token1.lastPriceUSD))
          ((0 : ℚ), (0 : ℚ))
  { protocol with totalSupplyUSD := totals.1, totalBorrowUSD := totals.2 }

/-- helpers.ts recalculateUserTotals: enumerate the reserves list (a
reverted getReservesList is `none` and contributes nothing), sum the
user's non-zero supply balances and combined debt balances in USD, and
overwrite the user totals with the sums. -/
def recalculateUserTotals (user : User) (reservesResult : Option (List String))
    (positions : String → Option UserPosition) (markets : String → Option Market)
    (tokens : String → Option Token) : User :=
  let totals :=
    match reservesResult with
    | none => ((0 : ℚ), (0 : ℚ))
    | some reserves =>
        reserves.foldl (fun acc marketId =>
          match positions (user.id ++ "-" ++ marketId) with
          | none => acc
          | some position =>
              match markets marketId with
              | none => acc
              | some market =>
                  match tokens market.inputToken with
                  | none => acc
                  | some token =>
                      let acc1 :=
                        if 0 < position.aTokenBalance then
                          (acc.1 + convertTokenToDecimal position.aTokenBalance token.decimals
                                    * token.lastPriceUSD,
                           acc.2)
                        else acc
                      let totalDebt := position.variableDebtBalance + position.stableDebtBalance
                      if 0 < totalDebt then
                        (acc1.1,
                         acc1.2 + convertTokenToDecimal totalDebt token.decimals
                                   * token.lastPriceUSD)
                      else acc1)
          ((0 : ℚ), (0 : ℚ))
  { user with totalSupplyUSD := totals.1, totalBorrowUSD := totals.2 }

/-- pool.ts handleSupply position mutation (lines 430-434): resync the
balances from chain, then add the event amount to principal and
totalDeposited. -/
def supplyPositionUpdate (position : UserPosition) (userData : Option UserReserveData)
    (amount timestamp : ℤ) : UserPosition :=
  let p1 := updateUserPositionFromChainF position userData
  { p1 with
      principal := p1.principal + amount
      totalDeposited := p1.totalDeposited + amount
      lastUpdateTimestamp := timestamp }

/-- pool.ts handleWithdraw position mutation (lines 479-499): resync the
balances from chain, add the amount to totalWithdrawn, recompute
realizedPnL when cumulative withdrawals reach cumulative deposits and the
input token entity exists, and reduce principal floored at zero. -/
def withdrawPositionUpdate (position : UserPosition) (userData : Option UserReserveData)
    (tokenLoad : Option Token) (amount timestamp : ℤ) : UserPosition :=
  let p1 := updateUserPositionFromChainF position userData
  let p2 := { p1 with
                totalWithdrawn := p1.totalWithdrawn + amount
                lastUpdateTimestamp := timestamp }
  let totalEarned := p2.totalWithdrawn - p2.totalDeposited
  let p3 :=
    if p2.totalDeposited ≤ p2.totalWithdrawn then
      match tokenLoad with
      | some token =>
          { p2 with realizedPnL := convertTokenToDecimal totalEarned token.decimals }
      | none => p2
    else p2
  if amount ≤ p3.principal then
    { p3 with principal := p3.principal - amount }
  else
    { p3 with principal := 0 }

/-- pool.ts handleBorrow / handleRepay position mutation: resync the
balances from chain and stamp the update time; principal, the cumulative
deposit/withdraw counters and realizedPnL are untouched. -/
def borrowOrRepayPositionUpdate (position : UserPosition)
    (userData : Option UserReserveData) (timestamp : ℤ) : UserPosition :=
  let p1 := updateUserPositionFromChainF position userData
  { p1 with lastUpdateTimestamp := timestamp }

/-- pool.ts handleSupply, market/protocol/position part in source order:
accrue revenue first (on the pre-event market state), then mutate the
position, then overwrite the market state from chain. -/
def handleSupplyCore (protocolLoad : Option Protocol) (market : Market)
    (position : UserPosition) (tokenLoad : Option Token)
    (userData : Option UserReserveData) (reserveData : Option ReserveData)
    (amount timestamp blockNumber : ℤ) : Protocol × Market × UserPosition :=
  let accr := calculateAndAccumulateRevenue protocolLoad market tokenLoad timestamp
  let position1 := supplyPositionUpdate position userData amount timestamp
  let market1 := updateMarketStateF accr.2 reserveData
  let market2 := { market1 with lastUpdateTimestamp := timestamp, lastUpdateBlock := blockNumber }
  (accr.1, market2, position1)

/-- pool.ts handleWithdraw, market/protocol/position part in source
order: accrue revenue first, then mutate the position, then overwrite
the market state from chain. -/
def handleWithdrawCore (protocolLoad : Option Protocol) (market : Market)
    (position : UserPosition) (tokenLoad : Option Token)
    (userData : Option UserReserveData) (reserveData : Option ReserveData)
    (amount timestamp blockNumber : ℤ) : Protocol × Market × UserPosition :=
  let accr := calculateAndAccumulateRevenue protocolLoad market tokenLoad timestamp
  let position1 := withdrawPositionUpdate position userData tokenLoad amount timestamp
  let market1 := updateMarketStateF accr.2 reserveData
  let market2 := { market1 with lastUpdateTimestamp := timestamp, lastUpdateBlock := blockNumber }
  (accr.1, market2, position1)

/-- pool.ts handleBorrow, market/protocol/position part in source order. -/
def handleBorrowCore (protocolLoad : Option Protocol) (market : Market)
    (position : UserPosition) (tokenLoad : Option Token)
    (userData : Option UserReserveData) (reserveData : Option ReserveData)
    (timestamp blockNumber : ℤ) : Protocol × Market × UserPosition :=
  let accr := calculateAndAccumulateRevenue protocolLoad market tokenLoad timestamp
  let position1 := borrowOrRepayPositionUpdate position userData timestamp
  let market1 := updateMarketStateF accr.2 reserveData
  let market2 := { market1 with lastUpdateTimestamp := timestamp, lastUpdateBlock := blockNumber }
  (accr.1, market2, position1)

/-- pool.ts handleRepay, market/protocol/position part in source order. -/
def handleRepayCore (protocolLoad : Option Protocol) (market : Market)
    (position : UserPosition) (tokenLoad : Option Token)
    (userData : Option UserReserveData) (reserveData : Option ReserveData)
    (timestamp blockNumber : ℤ) : Protocol × Market × UserPosition :=
  let accr := calculateAndAccumulateRevenue protocolLoad market tokenLoad timestamp
  let position1 := borrowOrRepayPositionUpdate position userData timestamp
  let market1 := updateMarketStateF accr.2 reserveData
  let market2 := { market1 with lastUpdateTimestamp := timestamp, lastUpdateBlock := blockNumber }
  (accr.1, market2, position1)

/-- pool.ts handleReserveDataUpdated, market/protocol part in source
order: accrue revenue first (on the pre-event rates), then overwrite the
rates from the event, recompute APYs, and resync the market totals. -/
def handleReserveDataUpdatedCore (protocolLoad : Option Protocol) (market : Market)
    (tokenLoad : Option Token) (params : RateParams) (reserveData : Option ReserveData)
    (timestamp blockNumber : ℤ) : Protocol × Market :=
  let accr := calculateAndAccumulateRevenue protocolLoad market tokenLoad timestamp
  let market1 := { accr.2 with
                     liquidityRate := params.liquidityRate
                     variableBorrowRate := params.variableBorrowRate
                     stableBorrowRate := params.stableBorrowRate
                     supplyAPY := rayToDecimal params.liquidityRate * HUNDRED_BD
                     variableBorrowAPY := rayToDecimal params.variableBorrowRate * HUNDRED_BD
                     lastUpdateTimestamp := timestamp
                     lastUpdateBlock := blockNumber }
  let market2 := updateMarketStateF market1 reserveData
  (accr.1, market2)

/-- pool.ts processMarketInBlock, in source order: FIRST overwrite the
market state from chain (updateMarketState) and refresh the token price,
THEN accrue revenue, then recompute APYs and stamp the block. -/
def processMarketInBlock (protocolLoad : Option Protocol) (market : Market)
    (reserveData : Option ReserveData) (tokenLoad : Option Token) (oraclePrice : ℚ)
    (timestamp blockNumber : ℤ) : Protocol × Market :=
  let market1 := updateMarketStateF market reserveData
  let token1 := tokenLoad.map fun t =>
    { t with lastPriceUSD := oraclePrice, lastPriceTimestamp := timestamp }
  let accr := calculateAndAccumulateRevenue protocolLoad market1 token1 timestamp
  let market2 := { accr.2 with
                     supplyAPY := rayToDecimal accr.2.liquidityRate * HUNDRED_BD
                     variableBorrowAPY := rayToDecimal accr.2.variableBorrowRate * HUNDRED_BD
                     lastUpdateTimestamp := timestamp
                     lastUpdateBlock := blockNumber }
  (accr.1, market2)

/-- Iterated accrual: run calculateAndAccumulateRevenue over a list of
timestamps, threading the protocol and market state. -/
def accrualRun (protocolLoad : Option Protocol) (market : Market)
    (tokenLoad : Option Token) (timestamps : List ℤ) : Protocol × Market :=
  timestamps.foldl
    (fun state ts => calculateAndAccumulateRevenue (some state.1) state.2 tokenLoad ts)
    (getOrCreateProtocol protocolLoad, market)

/-- snapshots.ts: a freshly created DailySnapshot - zero volumes, zero
active users, zero revenue, current market state copied as baseline. -/
def freshDailySnapshot (market : Market) (dayId timestamp : ℤ) : DailySnapshot :=
  { marketId := market.id
    dayId := dayId
    timestamp := timestamp
    dailySupplyVolume := 0
    dailyWithdrawVolume := 0
    dailyBorrowVolume := 0
    dailyRepayVolume := 0
    dailyActiveUsers := 0
    dailySupplySideRevenueUSD := 0
    dailyProtocolSideRevenueUSD := 0
    dailyTotalRevenueUSD := 0
    supplyAPY := market.supplyAPY
    borrowAPY := market.variableBorrowAPY
    utilizationRate := market.utilizationRate
    totalSupply := market.totalSupply
    totalBorrow := market.totalBorrow }

/-- The snapshot updateDailySnapshot starts from: the loaded one, or a
fresh one when none exists for (market, day). -/
def loadedDailySnapshot (market : Market) (timestamp : ℤ)
    (snapshotLoad : Option DailySnapshot) : DailySnapshot :=
  match snapshotLoad with
  | some s => s
  | none => freshDailySnapshot market (getDayId timestamp) timestamp

/-- The DailyActiveUser entity id: dayId.toString() + hyphen + userId -
keyed by day and user only, with no market component. -/
def dailyActiveUserKey (dayId : ℤ) (userId : String) : String :=
  toString dayId ++ "-" ++ userId

/-- snapshots.ts updateDailySnapshot, volume block: add the volume to
the counter selected by the volume type string. -/
def addDailyVolume (s : DailySnapshot) (volumeType : String) (volume : ℤ) : DailySnapshot :=
  if volumeType = "SUPPLY" then
    { s with dailySupplyVolume := s.dailySupplyVolume + volume }
  else if volumeType = "WITHDRAW" then
    { s with dailyWithdrawVolume := s.dailyWithdrawVolume + volume }
  else if volumeType = "BORROW" then
    { s with dailyBorrowVolume := s.dailyBorrowVolume + volume }
  else if volumeType = "REPAY" then
    { s with dailyRepayVolume := s.dailyRepayVolume + volume }
  else s

/-- snapshots.ts updateDailySnapshot, state-copy block: overwrite the
copied market rate/utilization/totals fields with the current values. -/
def copyMarketState (s : DailySnapshot) (market : Market) : DailySnapshot :=
  { s with
      supplyAPY := market.supplyAPY
      borrowAPY := market.variableBorrowAPY
      utilizationRate := market.utilizationRate
      totalSupply := market.totalSupply
      totalBorrow := market.totalBorrow }

/-- snapshots.ts updateDailySnapshot, projected-revenue block: the same
spread/reserve-factor split as the accrual engine, normalized by a fixed
365-day year, overwriting (not accumulating) the revenue fields. -/
def projectDailyRevenue (s : DailySnapshot) (market : Market)
    (tokenLoad : Option Token) : DailySnapshot :=
  if 0 < market.totalBorrow ∧ 0 < market.variableBorrowRate then
    if 0 < spreadOf market then
      match tokenLoad with
      | some token =>
          let dailyRevenue := spreadOf market * totalBorrowUSDOf market token / 365
          let protocolRevenue := dailyRevenue * reserveFactorDecimalOf market
          let supplySideRevenue := dailyRevenue - protocolRevenue
          { s with
              dailySupplySideRevenueUSD := supplySideRevenue
              dailyProtocolSideRevenueUSD := protocolRevenue
              dailyTotalRevenueUSD := dailyRevenue }
      | none => s
    else s
  else s

/-- snapshots.ts updateDailySnapshot: load or create the (market, day)
snapshot, add the volume to the counter for the event type, count the
user as a daily active user only when no DailyActiveUser record keyed
(day, user) exists yet, refresh the copied market state, and overwrite
the projected daily revenue fields.  `activeUserKeys` models the set of
existing DailyActiveUser entity ids; the updated set is returned. -/
def updateDailySnapshot (market : Market) (timestamp : ℤ) (volumeType : String)
    (volume : ℤ) (amountUSD : ℚ) (userId : String)
    (snapshotLoad : Option DailySnapshot) (activeUserKeys : List String)
    (tokenLoad : Option Token) : DailySnapshot × List String :=
  let _ := amountUSD
  let dayId := getDayId timestamp
  let snapshot0 := loadedDailySnapshot market timestamp snapshotLoad
  let snapshot1 := addDailyVolume snapshot0 volumeType volume
  let activeUserId := dailyActiveUserKey dayId userId
  let counted :=
    if activeUserKeys.contains activeUserId then
      (snapshot1, activeUserKeys)
    else
      ({ snapshot1 with dailyActiveUsers := snapshot1.dailyActiveUsers + 1 },
       activeUserId :: activeUserKeys)
  let snapshot2 := copyMarketState counted.1 market
  let snapshot3 := projectDailyRevenue snapshot2 market tokenLoad
  (snapshot3, counted.2)

/-- A six-decimal token priced at one dollar, for the concrete accrual
scenario. -/
def exToken5 : Token :=
  { id := "0xusdc"
    symbol := "USDC"
    name := "USD Coin"
    decimals := 6
    totalSupply := 0
    lastPriceUSD := 1
    lastPriceTimestamp := 0 }

/-- Market for the concrete accrual scenario: one million tokens
borrowed (raw amount 10^12 at six decimals), ray-encoded 5 percent
variable borrow rate, ray-encoded 3 percent liquidity rate, reserve
factor 1000 basis points, last accrual at time zero. -/
def exMarket5 : Market :=
  { id := "0xusdc"
    inputToken := "0xusdc"
    totalSupply := 2000000000000
    totalBorrow := 1000000000000
    availableLiquidity := 1000000000000
    liquidityRate := 30000000000000000000000000
    variableBorrowRate := 50000000000000000000000000
    stableBorrowRate := 0
    supplyAPY := 0
    variableBorrowAPY := 0
    utilizationRate := 0
    reserveFactor := 1000
    lastUpdateTimestamp := 0
    lastUpdateBlock := 0
    lastRevenueCalculationTimestamp := 0 }

/-- Token for the block-tick ordering counterexample: six decimals, no
cached price (the block handler refreshes it from the oracle). -/
def exToken6 : Token :=
  { id := "0xweth"
    symbol := "WETH"
    name := "Wrapped Ether"
    decimals := 6
    totalSupply := 0
    lastPriceUSD := 0
    lastPriceTimestamp := 0 }

/-- Pre-tick market state for the ordering counterexample: zero variable
borrow rate and zero borrow, so accrual on this state yields nothing. -/
def exMarket6 : Market :=
  { id := "0xweth"
    inputToken := "0xweth"
    totalSupply := 0
    totalBorrow := 0
    availableLiquidity := 0
    liquidityRate := 0
    variableBorrowRate := 0
    stableBorrowRate := 0
    supplyAPY := 0
    variableBorrowAPY := 0
    utilizationRate := 0
    reserveFactor := 0
    lastUpdateTimestamp := 0
    lastUpdateBlock := 0
    lastRevenueCalculationTimestamp := 0 }

/-- On-chain reserve data for the ordering counterexample: after the
sync the market has a positive borrow total and a ray-encoded 5 percent
variable borrow rate. -/
def exReserveData6 : ReserveData :=
  { totalAToken := 2000000000000
    totalStableDebt := 0
    totalVariableDebt := 1000000000000
    liquidityRate := 0
    variableBorrowRate := 50000000000000000000000000
    stableBorrowRate := 0 }

/-- The counterexample market after the block handler's resync. -/
def exMarket6Synced : Market := updateMarketStateF exMarket6 (some exReserveData6)

/-- The counterexample token after the block handler's price refresh. -/
def exToken6Refreshed : Token :=
  { exToken6 with lastPriceUSD := 1, lastPriceTimestamp := 31536000 }

/-- A zero-decimal token for the deposit/withdraw P and L scenario, so
token-decimal units coincide with raw units. -/
def exToken8 : Token :=
  { id := "0xtok8"
    symbol := "T8"
    name := "Token8"
    decimals := 0
    totalSupply := 0
    lastPriceUSD := 1
    lastPriceTimestamp := 0 }

/-- A freshly created user position (all counters zero), as initialized
by getOrCreateUserPosition. -/
def freshUserPosition : UserPosition :=
  { aTokenBalance := 0
    variableDebtBalance := 0
    stableDebtBalance := 0
    principal := 0
    totalDeposited := 0
    totalWithdrawn := 0
    realizedPnL := 0
    unrealizedPnL := 0
    isCollateral := false
    lastUpdateTimestamp := 0 }

/-- P and L scenario, step 1: deposit 100. -/
def exPosA : UserPosition := supplyPositionUpdate freshUserPosition none 100 1

/-- P and L scenario, step 2: withdraw 60. -/
def exPosB : UserPosition := withdrawPositionUpdate exPosA none (some exToken8) 60 2

/-- P and L scenario, step 3: withdraw a further 50. -/
def exPosC : UserPosition := withdrawPositionUpdate exPosB none (some exToken8) 50 3

/-- The Protocol entity invariant named by the spec: totalRevenueUSD
equals the sum of the two cumulative revenue counters. -/
def protocolRevenueInvariant (p : Protocol) : Prop :=
  p.totalRevenueUSD =
    p.cumulativeSupplySideRevenueUSD + p.cumulativeProtocolSideRevenueUSD

instance (p : Protocol) : Decidable (protocolRevenueInvariant p) := by
  unfold protocolRevenueInvariant
  infer_instance

/-- Early-return branch of the accrual: when time has not advanced past
the last accrual timestamp, the loaded protocol and the market are
returned unchanged. -/
theorem calc_eq_of_le (pl : Option Protocol) (m : Market) (tok : Option Token) (ts : ℤ)
    (h : ts ≤ m.lastRevenueCalculationTimestamp) :
    calculateAndAccumulateRevenue pl m tok ts = (getOrCreateProtocol pl, m) := by
  unfold calculateAndAccumulateRevenue
  simp [h]

/-- The market returned by the accrual carries timestamp `ts` as its new
last accrual time when the guard passes, and is unchanged otherwise. -/
theorem calc_snd_eq (pl : Option Protocol) (m : Market) (tok : Option Token) (ts : ℤ) :
    (calculateAndAccumulateRevenue pl m tok ts).2 =
      if ts ≤ m.lastRevenueCalculationTimestamp then m
      else { m with lastRevenueCalculationTimestamp := ts } := by
  unfold calculateAndAccumulateRevenue
  by_cases h : ts ≤ m.lastRevenueCalculationTimestamp <;> simp [h]

/-- The accrual never moves the last accrual timestamp down. -/
theorem calc_last_mono (pl : Option Protocol) (m : Market) (tok : Option Token) (ts : ℤ) :
    m.lastRevenueCalculationTimestamp ≤
      (calculateAndAccumulateRevenue pl m tok ts).2.lastRevenueCalculationTimestamp := by
  rw [calc_snd_eq]
  by_cases h : ts ≤ m.lastRevenueCalculationTimestamp
  · simp [h]
  · simp [h]
    omega

/-- After an accrual at time `ts`, the market's last accrual timestamp
is at least `ts`. -/
theorem calc_last_ge (pl : Option Protocol) (m : Market) (tok : Option Token) (ts : ℤ) :
    ts ≤ (calculateAndAccumulateRevenue pl m tok ts).2.lastRevenueCalculationTimestamp := by
  rw [calc_snd_eq]
  by_cases h : ts ≤ m.lastRevenueCalculationTimestamp <;> simp [h]

/-- Revenue branch of the accrual: when the timestamp guard and all
three revenue conditions hold and the token is loaded, the returned
protocol is the loaded one with both cumulative counters advanced by the
computed split and the total recomputed as their sum. -/
theorem calc_fst_eq_of_guards (pl : Option Protocol) (m : Market) (tok : Token) (ts : ℤ)
    (h1 : m.lastRevenueCalculationTimestamp < ts) (hb : 0 < m.totalBorrow)
    (hr : 0 < m.variableBorrowRate) (hs : 0 < spreadOf m) :
    (calculateAndAccumulateRevenue pl m (some tok) ts).1 =
      { getOrCreateProtocol pl with
          cumulativeSupplySideRevenueUSD :=
            (getOrCreateProtocol pl).cumulativeSupplySideRevenueUSD
              + supplySideRevenueOf m tok (ts - m.lastRevenueCalculationTimestamp)
          cumulativeProtocolSideRevenueUSD :=
            (getOrCreateProtocol pl).cumulativeProtocolSideRevenueUSD
              + protocolRevenueOf m tok (ts - m.lastRevenueCalculationTimestamp)
          totalRevenueUSD :=
            ((getOrCreateProtocol pl).cumulativeSupplySideRevenueUSD
              + supplySideRevenueOf m tok (ts - m.lastRevenueCalculationTimestamp))
            + ((getOrCreateProtocol pl).cumulativeProtocolSideRevenueUSD
              + protocolRevenueOf m tok (ts - m.lastRevenueCalculationTimestamp)) } := by
  unfold calculateAndAccumulateRevenue
  simp [not_le.mpr h1, hb, hr, hs]

/-- Claim C1: for the Protocol singleton, after every write performed by
getOrCreateProtocol (creation), calculateAndAccumulateRevenue
(accumulation) or recalculateProtocolTotals (recomputation), the
equality totalRevenueUSD = cumulativeSupplySideRevenueUSD +
cumulativeProtocolSideRevenueUSD holds: creation establishes it, and
both other operations preserve it. -/
theorem protocol_revenue_sum_invariant :
    protocolRevenueInvariant (getOrCreateProtocol none) ∧
    (∀ (pl : Option Protocol) (m : Market) (tok : Option Token) (ts : ℤ),
      protocolRevenueInvariant (getOrCreateProtocol pl) →
      protocolRevenueInvariant (calculateAndAccumulateRevenue pl m tok ts).1) ∧
    (∀ (pl : Option Protocol) (rr : Option (List String))
       (mk : String → Option Market) (tk : String → Option Token) (pr : String → ℚ),
      protocolRevenueInvariant (getOrCreateProtocol pl) →
      protocolRevenueInvariant (recalculateProtocolTotals pl rr mk tk pr)) := by
  refine ⟨by norm_num [protocolRevenueInvariant, getOrCreateProtocol], ?_, ?_⟩
  · intro pl m tok ts h
    unfold calculateAndAccumulateRevenue
    by_cases hts : ts ≤ m.lastRevenueCalculationTimestamp
    · simpa [hts] using h
    · by_cases hg : 0 < m.totalBorrow ∧ 0 < m.variableBorrowRate
      · by_cases hs : 0 < spreadOf m
        · cases tok with
          | none => simpa [hts, hg, hs] using h
          | some token => simp [hts, hg, hs, protocolRevenueInvariant]
        · simpa [hts, hg, hs] using h
      · simpa [hts, hg] using h
  · intro pl rr mk tk pr h
    unfold recalculateProtocolTotals
    simpa [protocolRevenueInvariant] using h

/-- Witness for C1: the invariant propagates through a concrete accrual
and a concrete totals recomputation starting from a freshly created
protocol. -/
theorem protocol_revenue_sum_invariant_witness :
    protocolRevenueInvariant
      (calculateAndAccumulateRevenue none exMarket5 (some exToken5) 100).1 ∧
    protocolRevenueInvariant
      (recalculateProtocolTotals none none (fun _ => none) (fun _ => none) (fun _ => 0)) :=
  ⟨protocol_revenue_sum_invariant.2.1 none exMarket5 (some exToken5) 100
     (by norm_num [protocolRevenueInvariant, getOrCreateProtocol]),
   protocol_revenue_sum_invariant.2.2 none none (fun _ => none) (fun _ => none) (fun _ => 0)
     (by norm_num [protocolRevenueInvariant, getOrCreateProtocol])⟩

/-- Claim C2: the accrual is a guarded no-op - when the call timestamp
does not exceed the market's last accrual timestamp it returns at once
with the loaded protocol and the market unchanged, and an immediate
second call with the same timestamp changes nothing. -/
theorem accrual_idempotent :
    (∀ (pl : Option Protocol) (m : Market) (tok : Option Token) (ts : ℤ),
      ts ≤ m.lastRevenueCalculationTimestamp →
      calculateAndAccumulateRevenue pl m tok ts = (getOrCreateProtocol pl, m)) ∧
    (∀ (pl : Option Protocol) (m : Market) (tok : Option Token) (ts : ℤ),
      calculateAndAccumulateRevenue
          (some (calculateAndAccumulateRevenue pl m tok ts).1)
          (calculateAndAccumulateRevenue pl m tok ts).2 tok ts
        = ((calculateAndAccumulateRevenue pl m tok ts).1,
           (calculateAndAccumulateRevenue pl m tok ts).2)) := by
  refine ⟨fun pl m tok ts h => calc_eq_of_le pl m tok ts h, ?_⟩
  intro pl m tok ts
  exact calc_eq_of_le _ _ _ _ (calc_last_ge pl m tok ts)

/-- Witness for C2: a concrete accrual call at a timestamp equal to the
last accrual time leaves the protocol and the market unchanged. -/
theorem accrual_idempotent_witness :
    calculateAndAccumulateRevenue none exMarket5 (some exToken5) 0
      = (getOrCreateProtocol none, exMarket5) :=
  accrual_idempotent.1 none exMarket5 (some exToken5) 0 (by decide)

/-- Claim C3: the market's last accrual timestamp never decreases - in a
single call, across any sequence of calls - and whenever the guard
passes (timestamp strictly beyond the stored one) the field is advanced
to the call timestamp unconditionally, whatever the revenue branch did. -/
theorem last_revenue_timestamp_monotone :
    (∀ (pl : Option Protocol) (m : Market) (tok : Option Token) (ts : ℤ),
      m.lastRevenueCalculationTimestamp ≤
        (calculateAndAccumulateRevenue pl m tok ts).2.lastRevenueCalculationTimestamp) ∧
    (∀ (pl : Option Protocol) (m : Market) (tok : Option Token) (ts : ℤ),
      m.lastRevenueCalculationTimestamp < ts →
      (calculateAndAccumulateRevenue pl m tok ts).2.lastRevenueCalculationTimestamp = ts) ∧
    (∀ (tss : List ℤ) (pl : Option Protocol) (m : Market) (tok : Option Token),
      m.lastRevenueCalculationTimestamp ≤
        (accrualRun pl m tok tss).2.lastRevenueCalculationTimestamp) := by
  refine ⟨calc_last_mono, ?_, ?_⟩
  · intro pl m tok ts h
    rw [calc_snd_eq]
    simp [not_le.mpr h]
  · intro tss
    induction tss with
    | nil =>
        intro pl m tok
        simp [accrualRun]
    | cons t rest ih =>
        intro pl m tok
        have hstep : accrualRun pl m tok (t :: rest) =
            accrualRun (some (calculateAndAccumulateRevenue pl m tok t).1)
              (calculateAndAccumulateRevenue pl m tok t).2 tok rest := rfl
        rw [hstep]
        exact le_trans (calc_last_mono pl m tok t)
          (ih (some (calculateAndAccumulateRevenue pl m tok t).1)
            (calculateAndAccumulateRevenue pl m tok t).2 tok)

/-- Witness for C3: a concrete guarded accrual advances the last accrual
timestamp to the call timestamp. -/
theorem last_revenue_timestamp_monotone_witness :
    (calculateAndAccumulateRevenue none exMarket5 (some exToken5)
        31536000).2.lastRevenueCalculationTimestamp = 31536000 :=
  last_revenue_timestamp_monotone.2.1 none exMarket5 (some exToken5) 31536000 (by decide)

/-- Claim C4: whenever the accrual actually computes revenue (positive
borrow, positive variable rate, positive spread, token loaded), the
protocol-side and supply-side parts sum exactly to the period revenue,
a zero reserve factor sends everything to the supply side, and the two
cumulative counters are advanced by exactly those parts. -/
theorem revenue_split_complete :
    (∀ (m : Market) (tok : Token) (e : ℤ),
      protocolRevenueOf m tok e + supplySideRevenueOf m tok e = periodRevenueOf m tok e) ∧
    (∀ (m : Market) (tok : Token) (e : ℤ), m.reserveFactor = 0 →
      protocolRevenueOf m tok e = 0 ∧
      supplySideRevenueOf m tok e = periodRevenueOf m tok e) ∧
    (∀ (pl : Option Protocol) (m : Market) (tok : Token) (ts : ℤ),
      m.lastRevenueCalculationTimestamp < ts →
      0 < m.totalBorrow → 0 < m.variableBorrowRate → 0 < spreadOf m →
      (calculateAndAccumulateRevenue pl m (some tok) ts).1.cumulativeSupplySideRevenueUSD
          = (getOrCreateProtocol pl).cumulativeSupplySideRevenueUSD
            + supplySideRevenueOf m tok (ts - m.lastRevenueCalculationTimestamp) ∧
      (calculateAndAccumulateRevenue pl m (some tok) ts).1.cumulativeProtocolSideRevenueUSD
          = (getOrCreateProtocol pl).cumulativeProtocolSideRevenueUSD
            + protocolRevenueOf m tok (ts - m.lastRevenueCalculationTimestamp)) := by
  refine ⟨?_, ?_, ?_⟩
  · intro m tok e
    unfold supplySideRevenueOf
    ring
  · intro m tok e h
    unfold supplySideRevenueOf protocolRevenueOf reserveFactorDecimalOf
    rw [h]
    norm_num
  · intro pl m tok ts h1 hb hr hs
    rw [calc_fst_eq_of_guards pl m tok ts h1 hb hr hs]
    exact ⟨rfl, rfl⟩

/-- Witness for C4: the split facts at the concrete scenario market (and
the zero-reserve-factor fact at a zero-reserve-factor market). -/
theorem revenue_split_complete_witness :
    (protocolRevenueOf exMarket6 exToken6 1 = 0 ∧
      supplySideRevenueOf exMarket6 exToken6 1 = periodRevenueOf exMarket6 exToken6 1) ∧
    ((calculateAndAccumulateRevenue none exMarket5 (some exToken5)
          31536000).1.cumulativeSupplySideRevenueUSD
        = (getOrCreateProtocol none).cumulativeSupplySideRevenueUSD
          + supplySideRevenueOf exMarket5 exToken5
              (31536000 - exMarket5.lastRevenueCalculationTimestamp) ∧
      (calculateAndAccumulateRevenue none exMarket5 (some exToken5)
          31536000).1.cumulativeProtocolSideRevenueUSD
        = (getOrCreateProtocol none).cumulativeProtocolSideRevenueUSD
          + protocolRevenueOf exMarket5 exToken5
              (31536000 - exMarket5.lastRevenueCalculationTimestamp)) :=
  ⟨revenue_split_complete.2.1 exMarket6 exToken6 1 (by decide),
   revenue_split_complete.2.2 none exMarket5 exToken5 31536000 (by decide) (by decide)
     (by decide)
     (by norm_num [spreadOf, rayToDecimal, RAY_BD, exMarket5])⟩

/-- Claim C5: the concrete scenario - one million borrowed units of a
six-decimal one-dollar token, ray-encoded 5 percent borrow and 3 percent
liquidity rates, reserve factor 1000 basis points, one year elapsed -
yields spread 0.02, totalBorrowUSD 1000000, periodRevenue 20000,
protocolRevenue 2000, supplySideRevenue 18000, and those amounts are
added to the protocol's cumulative counters. -/
theorem concrete_accrual_scenario :
    spreadOf exMarket5 = 1 / 50 ∧
    totalBorrowUSDOf exMarket5 exToken5 = 1000000 ∧
    periodRevenueOf exMarket5 exToken5 31536000 = 20000 ∧
    protocolRevenueOf exMarket5 exToken5 31536000 = 2000 ∧
    supplySideRevenueOf exMarket5 exToken5 31536000 = 18000 ∧
    (calculateAndAccumulateRevenue none exMarket5 (some exToken5) 31536000).1 =
      { totalSupplyUSD := 0
        totalBorrowUSD := 0
        totalRevenueUSD := 20000
        cumulativeSupplySideRevenueUSD := 18000
        cumulativeProtocolSideRevenueUSD := 2000 } := by
  have hsp : spreadOf exMarket5 = 1 / 50 := by
    norm_num [spreadOf, rayToDecimal, RAY_BD, exMarket5]
  have hbu : totalBorrowUSDOf exMarket5 exToken5 = 1000000 := by
    have h6 : ((6 : ℤ)).toNat = 6 := rfl
    norm_num [totalBorrowUSDOf, convertTokenToDecimal, exponentToBigDecimal,
      exMarket5, exToken5, h6]
  have hpr : periodRevenueOf exMarket5 exToken5 31536000 = 20000 := by
    rw [periodRevenueOf, hsp, hbu]
    norm_num [SECONDS_PER_YEAR]
  have hprot : protocolRevenueOf exMarket5 exToken5 31536000 = 2000 := by
    rw [protocolRevenueOf, hpr]
    norm_num [reserveFactorDecimalOf, exMarket5]
  have hss : supplySideRevenueOf exMarket5 exToken5 31536000 = 18000 := by
    rw [supplySideRevenueOf, hpr, hprot]
    norm_num
  refine ⟨hsp, hbu, hpr, hprot, hss, ?_⟩
  rw [calc_fst_eq_of_guards none exMarket5 exToken5 31536000 (by decide) (by decide)
    (by decide) (by rw [hsp]; norm_num)]
  have he : (31536000 : ℤ) - exMarket5.lastRevenueCalculationTimestamp = 31536000 := by
    decide
  rw [he, hss, hprot]
  norm_num [getOrCreateProtocol]

/-- The block handler's protocol result is the accrual applied to the
ALREADY-SYNCED market and the ALREADY-REFRESHED token price (source
order of processMarketInBlock). -/
theorem processMarketInBlock_fst (pl : Option Protocol) (m : Market)
    (rd : Option ReserveData) (tok : Option Token) (price : ℚ) (ts bn : ℤ) :
    (processMarketInBlock pl m rd tok price ts bn).1 =
      (calculateAndAccumulateRevenue pl (updateMarketStateF m rd)
        (tok.map fun t => { t with lastPriceUSD := price, lastPriceTimestamp := ts }) ts).1 :=
  rfl

/-- The chain resync leaves the locally derived position counters
(principal, cumulative deposits/withdrawals, realized P and L) alone. -/
theorem sync_position_locals (pos : UserPosition) (ud : Option UserReserveData) :
    (updateUserPositionFromChainF pos ud).principal = pos.principal ∧
    (updateUserPositionFromChainF pos ud).totalDeposited = pos.totalDeposited ∧
    (updateUserPositionFromChainF pos ud).totalWithdrawn = pos.totalWithdrawn ∧
    (updateUserPositionFromChainF pos ud).realizedPnL = pos.realizedPnL := by
  cases ud <;> exact ⟨rfl, rfl, rfl, rfl⟩

/-- Principal after a withdrawal: decreased by the amount when covered,
floored at zero otherwise; the realized P and L branch never touches it. -/
theorem withdraw_principal_eq (pos : UserPosition) (ud : Option UserReserveData)
    (tok : Option Token) (a ts : ℤ) :
    (withdrawPositionUpdate pos ud tok a ts).principal =
      if a ≤ pos.principal then pos.principal - a else 0 := by
  unfold withdrawPositionUpdate
  obtain ⟨hp, hd, hw, _⟩ := sync_position_locals pos ud
  cases tok with
  | none =>
      by_cases hge : (updateUserPositionFromChainF pos ud).totalDeposited ≤
          (updateUserPositionFromChainF pos ud).totalWithdrawn + a <;>
        simp [hge, hp, apply_ite (fun p : UserPosition => p.principal)]
  | some token =>
      by_cases hge : (updateUserPositionFromChainF pos ud).totalDeposited ≤
          (updateUserPositionFromChainF pos ud).totalWithdrawn + a <;>
        simp [hge, hp, apply_ite (fun p : UserPosition => p.principal)]

/-- Realized P and L after a withdrawal, in each of the three cases of
the guard (below the deposit total; reached with the token loaded;
reached with the token missing). -/
theorem withdraw_realizedPnL_eq (pos : UserPosition) (ud : Option UserReserveData)
    (tok : Option Token) (a ts : ℤ) :
    (withdrawPositionUpdate pos ud tok a ts).realizedPnL =
      if pos.totalDeposited ≤ pos.totalWithdrawn + a then
        match tok with
        | some token =>
            convertTokenToDecimal (pos.totalWithdrawn + a - pos.totalDeposited) token.decimals
        | none => pos.realizedPnL
      else pos.realizedPnL := by
  unfold withdrawPositionUpdate
  obtain ⟨hp, hd, hw, hr⟩ := sync_position_locals pos ud
  cases tok with
  | none =>
      by_cases hge : (updateUserPositionFromChainF pos ud).totalDeposited ≤
          (updateUserPositionFromChainF pos ud).totalWithdrawn + a
      · rw [hd, hw] at hge
        simp [hge, hr, hd, hw, apply_ite (fun p : UserPosition => p.realizedPnL)]
      · rw [hd, hw] at hge
        simp [hge, hr, hd, hw, apply_ite (fun p : UserPosition => p.realizedPnL)]
  | some token =>
      by_cases hge : (updateUserPositionFromChainF pos ud).totalDeposited ≤
          (updateUserPositionFromChainF pos ud).totalWithdrawn + a
      · rw [hd, hw] at hge
        simp [hge, hr, hd, hw, apply_ite (fun p : UserPosition => p.realizedPnL)]
      · rw [hd, hw] at hge
        simp [hge, hr, hd, hw, apply_ite (fun p : UserPosition => p.realizedPnL)]

/-- Claim C6 counterexample: in the block-tick handler the accrual does
NOT use the pre-tick rate/balance state.  On a market whose stored
variable borrow rate is zero (so accrual on the in-effect state yields
nothing) and whose freshly synced chain state has a positive rate and
borrow, processMarketInBlock accrues revenue, so its protocol result
differs from the accrual on the pre-tick state. -/
theorem block_tick_accrual_order_counterexample :
    ¬ ((processMarketInBlock none exMarket6 (some exReserveData6) (some exToken6)
          1 31536000 1).1
        = (calculateAndAccumulateRevenue none exMarket6 (some exToken6) 31536000).1) := by
  intro heq
  have hR : (calculateAndAccumulateRevenue none exMarket6 (some exToken6) 31536000).1
      = getOrCreateProtocol none := by
    unfold calculateAndAccumulateRevenue
    have h1 : ¬ ((31536000 : ℤ) ≤ exMarket6.lastRevenueCalculationTimestamp) := by decide
    have h2 : ¬ (0 < exMarket6.totalBorrow ∧ 0 < exMarket6.variableBorrowRate) := by decide
    simp [h1, h2]
  have hL : (processMarketInBlock none exMarket6 (some exReserveData6) (some exToken6)
        1 31536000 1).1.cumulativeSupplySideRevenueUSD = 50000 := by
    have hstep : (processMarketInBlock none exMarket6 (some exReserveData6) (some exToken6)
          1 31536000 1).1
        = (calculateAndAccumulateRevenue none exMarket6Synced (some exToken6Refreshed)
            31536000).1 := rfl
    rw [hstep]
    rw [calc_fst_eq_of_guards none exMarket6Synced exToken6Refreshed 31536000 (by decide)
      (by decide) (by decide)
      (by norm_num [spreadOf, rayToDecimal, RAY_BD, exMarket6Synced, updateMarketStateF,
        exMarket6, exReserveData6])]
    have h6 : ((6 : ℤ)).toNat = 6 := rfl
    norm_num [getOrCreateProtocol, supplySideRevenueOf, protocolRevenueOf, periodRevenueOf,
      reserveFactorDecimalOf, spreadOf, rayToDecimal, RAY_BD, totalBorrowUSDOf,
      convertTokenToDecimal, exponentToBigDecimal, SECONDS_PER_YEAR, exMarket6Synced,
      exToken6Refreshed, updateMarketStateF, exMarket6, exReserveData6, exToken6, h6]
  rw [heq, hR] at hL
  norm_num [getOrCreateProtocol] at hL

/-- Claim C6 as amended: in the five event handlers the accrual runs
before any rate or balance of the affected market is overwritten (the
protocol result equals the accrual on the pre-event market state), but
in the block-tick handler processMarketInBlock the market resync and the
token price refresh run FIRST, so the accrual there uses the post-sync
rate/balance state and freshly fetched price. -/
theorem accrual_ordering_amended :
    (∀ (pl : Option Protocol) (m : Market) (pos : UserPosition) (tok : Option Token)
       (ud : Option UserReserveData) (rd : Option ReserveData) (a ts bn : ℤ),
      (handleSupplyCore pl m pos tok ud rd a ts bn).1
        = (calculateAndAccumulateRevenue pl m tok ts).1) ∧
    (∀ (pl : Option Protocol) (m : Market) (pos : UserPosition) (tok : Option Token)
       (ud : Option UserReserveData) (rd : Option ReserveData) (a ts bn : ℤ),
      (handleWithdrawCore pl m pos tok ud rd a ts bn).1
        = (calculateAndAccumulateRevenue pl m tok ts).1) ∧
    (∀ (pl : Option Protocol) (m : Market) (pos : UserPosition) (tok : Option Token)
       (ud : Option UserReserveData) (rd : Option ReserveData) (ts bn : ℤ),
      (handleBorrowCore pl m pos tok ud rd ts bn).1
        = (calculateAndAccumulateRevenue pl m tok ts).1) ∧
    (∀ (pl : Option Protocol) (m : Market) (pos : UserPosition) (tok : Option Token)
       (ud : Option UserReserveData) (rd : Option ReserveData) (ts bn : ℤ),
      (handleRepayCore pl m pos tok ud rd ts bn).1
        = (calculateAndAccumulateRevenue pl m tok ts).1) ∧
    (∀ (pl : Option Protocol) (m : Market) (tok : Option Token) (prm : RateParams)
       (rd : Option ReserveData) (ts bn : ℤ),
      (handleReserveDataUpdatedCore pl m tok prm rd ts bn).1
        = (calculateAndAccumulateRevenue pl m tok ts).1) ∧
    (∀ (pl : Option Protocol) (m : Market) (rd : Option ReserveData) (tok : Option Token)
       (price : ℚ) (ts bn : ℤ),
      (processMarketInBlock pl m rd tok price ts bn).1
        = (calculateAndAccumulateRevenue pl (updateMarketStateF m rd)
            (tok.map fun t => { t with lastPriceUSD := price, lastPriceTimestamp := ts })
            ts).1) :=
  ⟨fun _ _ _ _ _ _ _ _ _ => rfl, fun _ _ _ _ _ _ _ _ _ => rfl,
   fun _ _ _ _ _ _ _ _ => rfl, fun _ _ _ _ _ _ _ _ => rfl,
   fun _ _ _ _ _ _ _ => rfl, fun _ _ _ _ _ _ _ => rfl⟩

/-- Claim C7: on withdrawal the tracked principal decreases by exactly
the event amount when covered and floors at zero otherwise, so it never
becomes negative; the supply handler adds a non-negative amount and the
borrow/repay handlers leave principal untouched. -/
theorem withdraw_principal_floor :
    (∀ (pos : UserPosition) (ud : Option UserReserveData) (tok : Option Token) (a ts : ℤ),
      0 ≤ pos.principal → 0 ≤ a →
      0 ≤ (withdrawPositionUpdate pos ud tok a ts).principal ∧
      (withdrawPositionUpdate pos ud tok a ts).principal =
        if a ≤ pos.principal then pos.principal - a else 0) ∧
    (∀ (pos : UserPosition) (ud : Option UserReserveData) (a ts : ℤ),
      0 ≤ pos.principal → 0 ≤ a →
      0 ≤ (supplyPositionUpdate pos ud a ts).principal) ∧
    (∀ (pos : UserPosition) (ud : Option UserReserveData) (ts : ℤ),
      (borrowOrRepayPositionUpdate pos ud ts).principal = pos.principal) := by
  refine ⟨?_, ?_, ?_⟩
  · intro pos ud tok a ts hp ha
    rw [withdraw_principal_eq]
    refine ⟨?_, rfl⟩
    by_cases hle : a ≤ pos.principal
    · simp [hle]
    · simp [hle]
  · intro pos ud a ts hp ha
    unfold supplyPositionUpdate
    have hx := (sync_position_locals pos ud).1
    simp [hx]
    omega
  · intro pos ud ts
    unfold borrowOrRepayPositionUpdate
    exact (sync_position_locals pos ud).1

/-- Witness for C7: withdrawing 60 from a position whose principal is
100 leaves principal 40, and withdrawing 50 from principal 40 floors it
at zero. -/
theorem withdraw_principal_floor_witness :
    (0 ≤ (withdrawPositionUpdate exPosA none (some exToken8) 60 2).principal ∧
      (withdrawPositionUpdate exPosA none (some exToken8) 60 2).principal =
        if (60 : ℤ) ≤ exPosA.principal then exPosA.principal - 60 else 0) ∧
    0 ≤ (supplyPositionUpdate freshUserPosition none 100 1).principal :=
  ⟨withdraw_principal_floor.1 exPosA none (some exToken8) 60 2 (by decide) (by decide),
   withdraw_principal_floor.2.1 freshUserPosition none 100 1 (by decide) (by decide)⟩

/-- The volume block never touches the active-user counter. -/
theorem addDailyVolume_activeUsers (s : DailySnapshot) (vt : String) (vol : ℤ) :
    (addDailyVolume s vt vol).dailyActiveUsers = s.dailyActiveUsers := by
  unfold addDailyVolume
  repeat' split
  all_goals rfl

/-- The state-copy block never touches the active-user counter. -/
theorem copyMarketState_activeUsers (s : DailySnapshot) (market : Market) :
    (copyMarketState s market).dailyActiveUsers = s.dailyActiveUsers := rfl

/-- The projected-revenue block never touches the active-user counter. -/
theorem projectDailyRevenue_activeUsers (s : DailySnapshot) (market : Market)
    (tok : Option Token) :
    (projectDailyRevenue s market tok).dailyActiveUsers = s.dailyActiveUsers := by
  unfold projectDailyRevenue
  repeat' split
  all_goals rfl

/-- Claim C8: realizedPnL is recomputed only on withdrawal - the supply
and borrow/repay paths never touch it, a withdrawal below the cumulative
deposit total leaves it alone, and once cumulative withdrawals reach
cumulative deposits (with the token loaded) it becomes the surplus in
token-decimal units; concretely, deposit 100 / withdraw 60 leaves it at
its initial zero with principal 40, and a further withdrawal of 50 sets
it to 10. -/
theorem realized_pnl_withdraw_only :
    (∀ (pos : UserPosition) (ud : Option UserReserveData) (tok : Option Token) (a ts : ℤ),
      pos.totalWithdrawn + a < pos.totalDeposited →
      (withdrawPositionUpdate pos ud tok a ts).realizedPnL = pos.realizedPnL) ∧
    (∀ (pos : UserPosition) (ud : Option UserReserveData) (tok : Token) (a ts : ℤ),
      pos.totalDeposited ≤ pos.totalWithdrawn + a →
      (withdrawPositionUpdate pos ud (some tok) a ts).realizedPnL
        = convertTokenToDecimal (pos.totalWithdrawn + a - pos.totalDeposited) tok.decimals) ∧
    (∀ (pos : UserPosition) (ud : Option UserReserveData) (a ts : ℤ),
      (withdrawPositionUpdate pos ud none a ts).realizedPnL = pos.realizedPnL) ∧
    (∀ (pos : UserPosition) (ud : Option UserReserveData) (a ts : ℤ),
      (supplyPositionUpdate pos ud a ts).realizedPnL = pos.realizedPnL) ∧
    (∀ (pos : UserPosition) (ud : Option UserReserveData) (ts : ℤ),
      (borrowOrRepayPositionUpdate pos ud ts).realizedPnL = pos.realizedPnL) ∧
    (exPosB.principal = 40 ∧ exPosB.totalDeposited = 100 ∧ exPosB.totalWithdrawn = 60 ∧
      exPosB.realizedPnL = 0 ∧
      exPosC.totalWithdrawn = 110 ∧ exPosC.totalDeposited = 100 ∧ exPosC.principal = 0 ∧
      exPosC.realizedPnL = 10) := by
  refine ⟨?_, ?_, ?_, ?_, ?_, ?_⟩
  · intro pos ud tok a ts h
    rw [withdraw_realizedPnL_eq]
    simp [not_le.mpr h]
  · intro pos ud tok a ts h
    rw [withdraw_realizedPnL_eq]
    simp [h]
  · intro pos ud a ts
    rw [withdraw_realizedPnL_eq]
    simp
  · intro pos ud a ts
    unfold supplyPositionUpdate
    exact (sync_position_locals pos ud).2.2.2
  · intro pos ud ts
    unfold borrowOrRepayPositionUpdate
    exact (sync_position_locals pos ud).2.2.2
  · have hB0 : exPosB.realizedPnL = 0 := by
      show (withdrawPositionUpdate exPosA none (some exToken8) 60 2).realizedPnL = 0
      rw [withdraw_realizedPnL_eq]
      have h : ¬ (exPosA.totalDeposited ≤ exPosA.totalWithdrawn + 60) := by decide
      simp [h]
      rfl
    have hC10 : exPosC.realizedPnL = 10 := by
      show (withdrawPositionUpdate exPosB none (some exToken8) 50 3).realizedPnL = 10
      rw [withdraw_realizedPnL_eq]
      have h : exPosB.totalDeposited ≤ exPosB.totalWithdrawn + 50 := by decide
      have h2 : exPosB.totalWithdrawn + 50 - exPosB.totalDeposited = 10 := by decide
      simp [h, h2]
      norm_num [convertTokenToDecimal, exToken8]
    exact ⟨by decide, by decide, by decide, hB0, by decide, by decide, by decide, hC10⟩

/-- Witness for C8: the two guarded conjuncts evaluated on the concrete
deposit-100 / withdraw-60 / withdraw-50 scenario. -/
theorem realized_pnl_withdraw_only_witness :
    (withdrawPositionUpdate exPosA none (some exToken8) 60 2).realizedPnL
        = exPosA.realizedPnL ∧
    (withdrawPositionUpdate exPosB none (some exToken8) 50 3).realizedPnL
        = convertTokenToDecimal (exPosB.totalWithdrawn + 50 - exPosB.totalDeposited)
            exToken8.decimals :=
  ⟨realized_pnl_withdraw_only.1 exPosA none (some exToken8) 60 2 (by decide),
   realized_pnl_withdraw_only.2.1 exPosB none exToken8 50 3 (by decide)⟩

/-- Claim C9: updateDailySnapshot increments the daily-active-users
counter by exactly one precisely when no DailyActiveUser record keyed
(day, user) existed before the call; the record carries no market
component, so a second call on the same day for the same user - even on
a different market - leaves every snapshot counter unchanged. -/
theorem daily_active_user_dedup :
    (∀ (market : Market) (ts : ℤ) (vt : String) (vol : ℤ) (usd : ℚ) (userId : String)
       (sl : Option DailySnapshot) (dau : List String) (tok : Option Token),
      (updateDailySnapshot market ts vt vol usd userId sl dau tok).1.dailyActiveUsers
        = if dau.contains (dailyActiveUserKey (getDayId ts) userId) then
            (loadedDailySnapshot market ts sl).dailyActiveUsers
          else
            (loadedDailySnapshot market ts sl).dailyActiveUsers + 1) ∧
    (∀ (market : Market) (ts : ℤ) (vt : String) (vol : ℤ) (usd : ℚ) (userId : String)
       (sl : Option DailySnapshot) (dau : List String) (tok : Option Token),
      (updateDailySnapshot market ts vt vol usd userId sl dau tok).2
        = if dau.contains (dailyActiveUserKey (getDayId ts) userId) then dau
          else dailyActiveUserKey (getDayId ts) userId :: dau) ∧
    (∀ (mA mB : Market) (ts : ℤ) (vtA vtB : String) (volA volB : ℤ) (usdA usdB : ℚ)
       (userId : String) (slA slB : Option DailySnapshot) (dau : List String)
       (tokA tokB : Option Token),
      (updateDailySnapshot mB ts vtB volB usdB userId slB
          (updateDailySnapshot mA ts vtA volA usdA userId slA dau tokA).2 tokB).1.dailyActiveUsers
        = (loadedDailySnapshot mB ts slB).dailyActiveUsers) := by
  have hA : ∀ (market : Market) (ts : ℤ) (vt : String) (vol : ℤ) (usd : ℚ) (userId : String)
      (sl : Option DailySnapshot) (dau : List String) (tok : Option Token),
      (updateDailySnapshot market ts vt vol usd userId sl dau tok).1.dailyActiveUsers
        = if dau.contains (dailyActiveUserKey (getDayId ts) userId) then
            (loadedDailySnapshot market ts sl).dailyActiveUsers
          else
            (loadedDailySnapshot market ts sl).dailyActiveUsers + 1 := by
    intro market ts vt vol usd userId sl dau tok
    unfold updateDailySnapshot
    by_cases h : dailyActiveUserKey (getDayId ts) userId ∈ dau <;>
      simp [h, projectDailyRevenue_activeUsers, copyMarketState_activeUsers,
        addDailyVolume_activeUsers]
  have hB : ∀ (market : Market) (ts : ℤ) (vt : String) (vol : ℤ) (usd : ℚ) (userId : String)
      (sl : Option DailySnapshot) (dau : List String) (tok : Option Token),
      (updateDailySnapshot market ts vt vol usd userId sl dau tok).2
        = if dau.contains (dailyActiveUserKey (getDayId ts) userId) then dau
          else dailyActiveUserKey (getDayId ts) userId :: dau := by
    intro market ts vt vol usd userId sl dau tok
    unfold updateDailySnapshot
    by_cases h : dailyActiveUserKey (getDayId ts) userId ∈ dau <;> simp [h]
  refine ⟨hA, hB, ?_⟩
  intro mA mB ts vtA vtB volA volB usdA usdB userId slA slB dau tokA tokB
  have hmem : dailyActiveUserKey (getDayId ts) userId
      ∈ (updateDailySnapshot mA ts vtA volA usdA userId slA dau tokA).2 := by
    rw [hB]
    by_cases h : dailyActiveUserKey (getDayId ts) userId ∈ dau <;> simp [h]
  rw [hA]
  simp [hmem]

/-- Claim C10: when the market-discovery call (getReservesList) reverts,
recalculateUserTotals and recalculateProtocolTotals still overwrite the
respective totalSupplyUSD / totalBorrowUSD fields - with zero, not with
the previous values. -/
theorem discovery_failure_zeroes_totals :
    (∀ (user : User) (positions : String → Option UserPosition)
       (markets : String → Option Market) (tokens : String → Option Token),
      recalculateUserTotals user none positions markets tokens
        = { user with totalSupplyUSD := 0, totalBorrowUSD := 0 }) ∧
    (∀ (pl : Option Protocol) (markets : String → Option Market)
       (tokens : String → Option Token) (price : String → ℚ),
      recalculateProtocolTotals pl none markets tokens price
        = { getOrCreateProtocol pl with totalSupplyUSD := 0, totalBorrowUSD := 0 }) :=
  ⟨fun _ _ _ _ => rfl, fun _ _ _ _ => rfl⟩

end AaveSubgraph
